import Mathlib

/-!
Verification of the Comms911DocTools policy-generator pages (`app.py`,
`pages/tert.py`, `pages/ng-911.py`) against their specification.

The three source files share one shape: `get_pdf_text` extracts reference
text from uploaded PDFs, `generate_policy_section` assembles one system
instruction and one user query and submits them to the Gemini service, and
the Streamlit `main` keeps a per-session dict of generated sections, an
extracted-context cache and a display flag.  The definitions below are a
shallow embedding of that logic, translated statement by statement from
`pages/tert.py` (whose `get_pdf_text` is byte-identical to the copies in
`app.py` and `pages/ng-911.py`, and whose handlers match them where the
claims cite several files).  Python strings are Lean `String`s; Python
`dict.get` on the user-input dict is a function `String → Option String`;
exceptions of the PDF reader and of the Gemini client are `Except` values
supplied by the environment; Streamlit session state is an explicit record.
-/

/-- Model of Python string truthiness in `x if x else d`: the empty string
is falsy, every other string is truthy. -/
def pyStrOr (s dflt : String) : String := if s = "" then dflt else s

/-- Model of Python `str.startswith`. -/
def pyStartsWith (s pre : String) : Bool := pre.data.isPrefixOf s.data

/-- Model of Python `str.strip()`: drop whitespace from both ends. -/
def pyStrip (s : String) : String :=
  String.mk (((s.data.dropWhile Char.isWhitespace).reverse.dropWhile Char.isWhitespace).reverse)

/-- The user-input dict handed to `generate_policy_section`; `dict.get`
yields `none` for a missing key. -/
def UserInputs : Type := String → Option String

/-- Model of the f-string interpolation `{user_inputs.get(k)}`: a present
value is rendered verbatim, a missing key renders Python's `None` as the
literal text `None`. -/
def pyGetStr (d : UserInputs) (k : String) : String :=
  match d k with
  | some v => v
  | none => "None"

/-- A dict with one key bound (or rebound) on top of `d`, used to state how
`generate_policy_section` treats missing keys. -/
def updateDict (d : UserInputs) (k v : String) : UserInputs :=
  fun k' => if k' = k then some v else d k'

/-- An uploaded PDF as `get_pdf_text` sees it: its `.name`, and either the
list of per-page `extract_text()` results (the empty string standing for a
page whose extraction returns `None` or `""`), or the message of the
exception raised while reading it. -/
structure UploadedPdf where
  name : String
  pages : Except String (List String)

/-- Whether reading the document raises no exception. -/
def pdf_ok (d : UploadedPdf) : Bool :=
  match d.pages with
  | Except.ok _ => true
  | Except.error _ => false

/-- `page.extract_text() or " "` from the page loop of `get_pdf_text`. -/
def page_text_or_space (p : String) : String := if p = "" then " " else p

/-- The document loop of `get_pdf_text`, carrying the accumulated `text`.
On an exception it emits `st.error(f"Error reading PDF {pdf.name}: {e}")`
and returns `None`; the returned pair is (return value, error messages). -/
def get_pdf_text_go (text : String) : List UploadedPdf → Option String × List String
  | [] => (some (pyStrip text), [])
  | pdf :: rest =>
    match pdf.pages with
    | Except.ok ps =>
      get_pdf_text_go (ps.foldl (fun t p => t ++ page_text_or_space p) text) rest
    | Except.error e => (none, ["Error reading PDF " ++ pdf.name ++ ": " ++ e])

/-- `get_pdf_text(pdf_docs)` from `pages/tert.py` lines 26-37 (identical in
`app.py` lines 12-24 and `pages/ng-911.py` lines 26-37). -/
def get_pdf_text (pdf_docs : List UploadedPdf) : Option String × List String :=
  get_pdf_text_go "" pdf_docs

/-- The per-document text the specification describes: each page's
`extract_text() or " "`, in page order, concatenated. -/
def doc_text (d : UploadedPdf) : String :=
  match d.pages with
  | Except.ok ps => ps.foldl (fun t p => t ++ page_text_or_space p) ""
  | Except.error _ => ""

/-- Concatenation of a list of strings in list order. -/
def str_concat : List String → String
  | [] => ""
  | s :: ss => s ++ str_concat ss

/-- `POLICY_GENERATION_MODEL` from `pages/tert.py` line 11. -/
def POLICY_GENERATION_MODEL : String := "gemini-2.5-flash"

/-- `POLICY_SECTIONS` from `pages/tert.py` lines 14-21: the enumerated
section titles offered by the dropdown, with their short names. -/
def POLICY_SECTIONS : List (String × String) :=
  [ ("Section 1.0: Purpose, Scope, and Authority", "Purpose, Scope, and Authority"),
    ("Section 2.0: Definitions and Acronyms", "Definitions and Acronyms"),
    ("Section 3.0: TERT Personnel Minimum Qualifications and Training", "Qualifications and Training"),
    ("Section 4.0: Activation and Deployment Steps", "Activation and Deployment Steps"),
    ("Section 5.0: Logistics, Finance, and Equipment", "Logistics and Finance"),
    ("Section 6.0: Safety, Wellness, and Post-Mission Review", "Safety and Review") ]

/-- Section 1.0 guidance literal from `pages/tert.py` lines 61-63. -/
def tert_guid_1 : String :=
  "\n        For this section, you MUST define the program's Purpose (using the TERT Program Goal input), Scope (clearly defining what TERT covers and does not cover), and Authority (referencing the State Authority Reference input). Use standard policy language and separate the three components clearly with subheadings.\n        "

/-- Section 2.0 guidance, text before the `local_roles_to_define` slot. -/
def tert_guid_2a : String :=
  "\n        For this section, you MUST define all standard TERT terms (e.g., TERT, PSAP, AHJ, TERT Team Leader, TERT Liaison, EMAC) based on the APCO/NENA standard. Additionally, you MUST include definitions for the following local roles/systems provided by the user: "

/-- Section 2.0 guidance, text after the `local_roles_to_define` slot. -/
def tert_guid_2b : String :=
  ". Format the output as a clean, alphabetical Markdown definition list (e.g., **TERM**: Definition.).\n        "

/-- Section 3.0 guidance literal from `pages/tert.py` lines 69-71. -/
def tert_guid_3 : String :=
  "\n        For this section, you MUST detail the minimum training and qualification requirements for all TERT personnel (Telecommunicators, Team Leaders, and Supervisors). You must strictly adhere to all SECTION 3.0 HARD CONSTRAINTS listed below. Ensure the local background check and additional local training requirements are clearly integrated.\n        "

/-- Section 4.0 guidance, text before the `local_request_mechanism` slot. -/
def tert_guid_4a : String :=
  "\n        For this section, you MUST provide a detailed, step-by-step procedure for TERT Activation and Deployment. Structure the content into three logical subsections: **I. Requesting PSAP Role**, **II. Activation Procedures**, and **III. TERT Package Requirements**.\n        - Activation Procedures MUST detail the process using the Local Request Mechanism: "

/-- Section 4.0 guidance, between `local_request_mechanism` and
`tert_package_items`. -/
def tert_guid_4b : String :=
  ".\n        - TERT Package Requirements MUST list the Essential TERT Package Items: "

/-- Section 4.0 guidance, text after the `tert_package_items` slot. -/
def tert_guid_4c : String :=
  " as provided by the Requesting PSAP.\n        - Use numbered lists or clear bullet points for all procedural steps.\n        "

/-- Section 5.0 guidance, text before the `reimbursement_mechanism` slot. -/
def tert_guid_5a : String :=
  "\n        For this section, you MUST establish policies for financial management, reimbursement, and equipment. The policy MUST detail:\n        1. **Reimbursement:** Use the mechanism: "

/-- Section 5.0 guidance, between `reimbursement_mechanism` and
`daily_expense_limit`. -/
def tert_guid_5b : String :=
  "\n        2. **Per Diem/Expenses:** Detail the use of the daily limit of "

/-- Section 5.0 guidance, between `daily_expense_limit` and
`equipment_provision`. -/
def tert_guid_5c : String :=
  " and the required expense documentation.\n        3. **Equipment Provisioning:** Clarify who provides equipment based on: "

/-- Section 5.0 guidance, text after the `equipment_provision` slot. -/
def tert_guid_5d : String :=
  ". Use subheadings for clarity.\n        "

/-- Section 6.0 guidance, text before the `on_site_safety_protocol` slot. -/
def tert_guid_6a : String :=
  "\n        For this section, you MUST detail all protocols for TERT member safety, wellness, and post-mission procedures. The policy MUST include:\n        1. **Safety Protocols:** Implement on-site safety using the guidance: "

/-- Section 6.0 guidance, between `on_site_safety_protocol` and
`cism_policy_reference`. -/
def tert_guid_6b : String :=
  ".\n        2. **Critical Incident Stress Management (CISM):** Detail access to CISM services using the reference: "

/-- Section 6.0 guidance, between `cism_policy_reference` and
`post_mission_review_requirement`. -/
def tert_guid_6c : String :=
  ".\n        3. **Post-Mission Review:** Make the TERT Deployment Review completion mandatory, to be completed within the following timeframe: "

/-- Section 6.0 guidance, text after the `post_mission_review_requirement`
slot. -/
def tert_guid_6d : String :=
  ".\n        "

/-- The fallback guidance of the final `else` branch. -/
def tert_guid_generic : String :=
  "Provide a comprehensive policy section based on all available inputs and TERT best practices."

/-- `section_specific_prompt_guidance` from `generate_policy_section` in
`pages/tert.py` lines 57-94: an `if/elif` chain on
`section_title.startswith(...)`, ending in a generic `else` fragment. -/
def section_specific_prompt_guidance (section_title : String) (user_inputs : UserInputs) : String :=
  if pyStartsWith section_title "Section 1.0" then tert_guid_1
  else if pyStartsWith section_title "Section 2.0" then
    tert_guid_2a ++ pyGetStr user_inputs "local_roles_to_define" ++ tert_guid_2b
  else if pyStartsWith section_title "Section 3.0" then tert_guid_3
  else if pyStartsWith section_title "Section 4.0" then
    tert_guid_4a ++ pyGetStr user_inputs "local_request_mechanism"
      ++ tert_guid_4b ++ pyGetStr user_inputs "tert_package_items" ++ tert_guid_4c
  else if pyStartsWith section_title "Section 5.0" then
    tert_guid_5a ++ pyGetStr user_inputs "reimbursement_mechanism"
      ++ tert_guid_5b ++ pyGetStr user_inputs "daily_expense_limit"
      ++ tert_guid_5c ++ pyGetStr user_inputs "equipment_provision" ++ tert_guid_5d
  else if pyStartsWith section_title "Section 6.0" then
    tert_guid_6a ++ pyGetStr user_inputs "on_site_safety_protocol"
      ++ tert_guid_6b ++ pyGetStr user_inputs "cism_policy_reference"
      ++ tert_guid_6c ++ pyGetStr user_inputs "post_mission_review_requirement" ++ tert_guid_6d
  else tert_guid_generic

/-- System-instruction literal up to the `section_title` slot. -/
def tert_sys_1 : String :=
  "\n    You are a legal policy writer and certified NJTI-TERT expert for a Public Safety Answering Point (PSAP).\n    Your task is to write the complete text for the policy section titled: \""

/-- System-instruction literal between `section_title` and `agency_name`. -/
def tert_sys_2 : String :=
  "\".\n    The generated policy MUST be compliant with the APCO/NENA ANS 1.105.2-2015 Standard for TERT Deployment.\n\n    **GENERAL CONSTRAINTS & CONTEXT (For all Sections):**\n    - Agency Legal Name: "

/-- System-instruction literal between `agency_name` and `ahj_name`. -/
def tert_sys_3 : String :=
  "\n    - Authority Having Jurisdiction (AHJ): "

/-- System-instruction literal between `ahj_name` and `ter_program_goal`. -/
def tert_sys_4 : String :=
  "\n    - TERT Program Goal: "

/-- System-instruction literal between `ter_program_goal` and
`state_authority_reference`. -/
def tert_sys_5 : String :=
  "\n    - State Authority Reference: "

/-- System-instruction literal between `state_authority_reference` and the
section-specific guidance. -/
def tert_sys_6 : String :=
  "\n    \n    **--- SECTION-SPECIFIC GENERATION INSTRUCTIONS ---**\n    "

/-- System-instruction literal between the guidance and `background_check`
(the hard-constraints block). -/
def tert_sys_7 : String :=
  "\n\n    **--- KEY CONSTRAINTS FOR REFERENCE (Always present for consistency) ---**\n    **SECTION 3.0 HARD CONSTRAINTS (Qualifications and Training):**\n    - TERT Telecommunicators MUST have successfully completed: FEMA IS-144, FEMA IS-100, and FEMA IS-700.\n    - TERT Team Leaders MUST additionally complete: FEMA IS-200 and FEMA IS-800.\n    - Local Background Check: "

/-- System-instruction literal between `background_check` and
`additional_training`. -/
def tert_sys_8 : String :=
  "\n    - Additional Required Training: "

/-- System-instruction literal between `additional_training` and the
optional-context slot. -/
def tert_sys_9 : String :=
  "\n    \n    **OPTIONAL CONTEXT:**\n    - The following text, extracted from existing local policies or agreements, should be used for context and consistency, but NEVER override the Hard Constraints:\n    ---\n    "

/-- System-instruction literal after the optional-context slot. -/
def tert_sys_10 : String :=
  "\n    ---\n    \n    The final output MUST be a formal, professional policy section written in clear Markdown format, suitable for inclusion in a TERT Policy Manual. Do not include any introductory or concluding remarks outside the policy text itself.\n    "

/-- The `system_instruction` f-string assembled by `generate_policy_section`
in `pages/tert.py` lines 97-125: literal segments interleaved with the
interpolated slots, the optional-context slot holding `policy_context` when
truthy and `"No external document context provided."` otherwise. -/
def system_instruction_tert (section_title : String) (user_inputs : UserInputs)
    (policy_context : String) : String :=
  tert_sys_1 ++ section_title
    ++ tert_sys_2 ++ pyGetStr user_inputs "agency_name"
    ++ tert_sys_3 ++ pyGetStr user_inputs "ahj_name"
    ++ tert_sys_4 ++ pyGetStr user_inputs "ter_program_goal"
    ++ tert_sys_5 ++ pyGetStr user_inputs "state_authority_reference"
    ++ tert_sys_6 ++ section_specific_prompt_guidance section_title user_inputs
    ++ tert_sys_7 ++ pyGetStr user_inputs "background_check"
    ++ tert_sys_8 ++ pyGetStr user_inputs "additional_training"
    ++ tert_sys_9 ++ pyStrOr policy_context "No external document context provided."
    ++ tert_sys_10

/-- The `user_query` f-string of `generate_policy_section`. -/
def user_query_tert (section_title : String) : String :=
  "Generate the full text for the policy section: " ++ section_title
    ++ " using all provided context and constraints."

/-- The outcomes the Gemini service can produce for one call: whether
`genai.Client(api_key=...)` raises, and what
`client.models.generate_content` returns for a given system instruction and
user query. -/
structure GeminiEnv where
  client_init : Except String Unit
  call_response : String → String → Except String String

/-- Observable external actions of `generate_policy_section`: constructing
the service client, and issuing the generation call with the assembled
instruction and query. -/
inductive ApiEvent where
  | clientInit : ApiEvent
  | generateCall (system_instruction user_query : String) : ApiEvent
deriving DecidableEq

/-- `generate_policy_section` from `pages/tert.py` lines 39-148, returning
its result string together with the external actions it performed: an empty
(falsy) API key returns the credential error before anything else; a client
constructor exception returns the init error; a service-call exception is
reported and replaced by the fixed failure text; otherwise the response
text is returned. -/
def generate_policy_section (section_title : String) (user_inputs : UserInputs)
    (policy_context api_key model : String) (env : GeminiEnv) : String × List ApiEvent :=
  if api_key = "" then
    ("Error: Gemini API Key is missing. Please enter it in the sidebar.", [])
  else
    match env.client_init with
    | Except.error e =>
      ("Error: Failed to initialize Gemini client: " ++ e, [ApiEvent.clientInit])
    | Except.ok _ =>
      match env.call_response (system_instruction_tert section_title user_inputs policy_context)
          (user_query_tert section_title) with
      | Except.ok t =>
        (t, [ApiEvent.clientInit,
             ApiEvent.generateCall
               (system_instruction_tert section_title user_inputs policy_context)
               (user_query_tert section_title)])
      | Except.error _ =>
        ("Error: Failed to generate policy. Check the API key or console for details.",
         [ApiEvent.clientInit,
          ApiEvent.generateCall
            (system_instruction_tert section_title user_inputs policy_context)
            (user_query_tert section_title)])

/-- The dynamic Streamlit session state of `pages/tert.py`: the result
store `generated_sections` (a Python dict, i.e. an insertion-ordered
association list), the extracted reference text `pdf_context`, the
full-draft display flag, and the API key field. -/
structure SessionState where
  generated_sections : List (String × String)
  pdf_context : String
  show_full_draft : Bool
  gemini_api_key : String

/-- Python dict assignment `m[k] = v`: replace the value in place if the
key exists (keeping its position), otherwise append the new pair. -/
def dict_set : List (String × String) → String → String → List (String × String)
  | [], k, v => [(k, v)]
  | (k', v') :: rest, k, v =>
    if k' = k then (k, v) :: rest else (k', v') :: dict_set rest k v

/-- The generate-button handler of `main` in `pages/tert.py` lines 420-436:
with a falsy stored API key it only shows an error; otherwise it resets
`show_full_draft`, calls `generate_policy_section` with the cached
`pdf_context`, and stores the returned text under the selected title. -/
def handle_generate (st : SessionState) (selected_section_title : String)
    (user_inputs : UserInputs) (env : GeminiEnv) : SessionState :=
  if st.gemini_api_key = "" then st
  else
    let generated :=
      generate_policy_section selected_section_title user_inputs st.pdf_context
        st.gemini_api_key POLICY_GENERATION_MODEL env
    { st with
      show_full_draft := false,
      generated_sections := dict_set st.generated_sections selected_section_title generated.1 }

/-- `clear_session_state` from `pages/tert.py` lines 151-157 (the guarded
version in `pages/ng-911.py` lines 151-159 has the same effect on a state
whose keys are initialized): reset the result store, the PDF context cache
and the full-draft flag. -/
def clear_session_state (st : SessionState) : SessionState :=
  { st with generated_sections := [], pdf_context := "", show_full_draft := false }

/-- One exported section: `f"## {title}\n\n{content}"`. -/
def section_block (title content : String) : String :=
  "## " ++ title ++ "\n\n" ++ content

/-- Python `sep.join(items)`. -/
def str_join (sep : String) : List String → String
  | [] => ""
  | [x] => x
  | x :: xs => x ++ sep ++ str_join sep xs

/-- `full_policy_text` from `main` in `pages/tert.py` lines 465-468 (same
expression in `app.py` lines 247-249 and `pages/ng-911.py` lines 450-453):
the `"\n\n---\n\n"`-join of the `## title` blocks over
`generated_sections.items()`, i.e. over the store in insertion order. -/
def full_policy_text (generated_sections : List (String × String)) : String :=
  str_join "\n\n---\n\n" (generated_sections.map (fun p => section_block p.1 p.2))

/-- Lexicographic (code-point) comparison of char lists, the order Python
`sorted` uses on strings. -/
def chars_le : List Char → List Char → Bool
  | [], _ => true
  | _ :: _, [] => false
  | x :: xs, y :: ys => if x < y then true else if x = y then chars_le xs ys else false

/-- Insertion into a `chars_le`-sorted list of strings. -/
def insert_sorted (s : String) : List String → List String
  | [] => [s]
  | t :: ts => if chars_le s.data t.data then s :: t :: ts else t :: insert_sorted s ts

/-- Stable insertion sort of strings, modelling Python `sorted`. -/
def sort_strings : List String → List String
  | [] => []
  | s :: ss => insert_sorted s (sort_strings ss)

/-- `sorted_sections` from `main` in `pages/tert.py` line 446: the display
order of the expanders is the sorted key list. -/
def sorted_sections (generated_sections : List (String × String)) : List String :=
  sort_strings (generated_sections.map Prod.fst)

/-- Claimed export, following the spec's words: the claim says the export
renders the stored sections in lexicographic (natural) order of their
section tags rather than insertion order. -/
def full_policy_text_sorted_spec (generated_sections : List (String × String)) : String :=
  str_join "\n\n---\n\n"
    ((sort_strings (generated_sections.map Prod.fst)).map
      (fun t => section_block t ((List.lookup t generated_sections).getD "")))

/-- Claimed fragment selection, following the spec's words: the section
fragment is chosen by exact match of the tag against the enumerated
tag-to-fragment mapping (the `POLICY_SECTIONS` titles with their fragments),
and any unmatched tag falls back to the generic fragment. -/
def fragment_by_exact_match (section_title : String) (user_inputs : UserInputs) : String :=
  match List.lookup section_title
      (POLICY_SECTIONS.map
        (fun p => (p.1, section_specific_prompt_guidance p.1 user_inputs))) with
  | some f => f
  | none => tert_guid_generic

/-- Split a character stream at each occurrence of the exported horizontal
rule separator `"\n\n---\n\n"`, leftmost-first and non-overlapping. -/
def splitSep : List Char → List (List Char)
  | [] => [[]]
  | '\n' :: '\n' :: '-' :: '-' :: '-' :: '\n' :: '\n' :: rest => [] :: splitSep rest
  | c :: rest =>
    match splitSep rest with
    | [] => [[c]]
    | p :: ps => (c :: p) :: ps

/-- Take the first line of a character stream: the characters before the
first newline, and the characters after it. -/
def take_line : List Char → List Char × List Char
  | [] => ([], [])
  | '\n' :: rest => ([], rest)
  | c :: rest =>
    let r := take_line rest
    (c :: r.1, r.2)

/-- Parse one exported chunk, following the spec's words: a level-2 heading
line `## tag` followed by a blank line and the section body.  A chunk that
bears no heading is kept as a tagless body. -/
def parse_block (b : List Char) : String × String :=
  if ['#', '#', ' '].isPrefixOf b then
    let r := b.drop 3
    let tl := take_line r
    match tl.2 with
    | '\n' :: body => (String.mk tl.1, String.mk body)
    | rest => (String.mk tl.1, String.mk rest)
  else ("", String.mk b)

/-- Re-parse an exported full-policy document, following the spec's words:
cut at the horizontal rules and read each chunk's level-2 heading and the
text under it. -/
def parse_export (doc : String) : List (String × String) :=
  (splitSep doc.data).map parse_block

/-- The character stream of one exported section block `## t\n\nc`. -/
def block_chars (t c : String) : List Char :=
  '#' :: '#' :: ' ' :: (t.data ++ '\n' :: '\n' :: c.data)

/-- The character stream of the exported separator `"\n\n---\n\n"`. -/
def sep_chars : List Char := ['\n', '\n', '-', '-', '-', '\n', '\n']

/-- Prepend a character to the first chunk of a chunk list. -/
def consHead (c : Char) : List (List Char) → List (List Char)
  | [] => [[c]]
  | p :: ps => (c :: p) :: ps

/-- The character stream of the exported document of a store: the section
blocks in store order with the separator between consecutive blocks. -/
def doc_chars : List (String × String) → List Char
  | [] => []
  | [p] => block_chars p.1 p.2
  | p :: rest => block_chars p.1 p.2 ++ (sep_chars ++ doc_chars rest)

/-- A result store whose exported document is unambiguous: tags and bodies
contain no newline, and no body opens with a dash (which could complete a
horizontal rule after the heading's blank line). -/
def safe_store (generated_sections : List (String × String)) : Bool :=
  generated_sections.all fun p =>
    (p.1.data.all (fun ch => ch != '\n'))
      && (p.2.data.all (fun ch => ch != '\n'))
      && (p.2.data.head? != some '-')

/- ===================== theorems: string basics ===================== -/

theorem str_foldl_shift (f : String → String) (ps : List String) :
    ∀ acc : String, ps.foldl (fun t p => t ++ f p) acc
      = acc ++ ps.foldl (fun t p => t ++ f p) "" := by
  induction ps with
  | nil => intro acc; simp
  | cons p ps ih =>
    intro acc
    simp only [List.foldl_cons]
    rw [ih (acc ++ f p), ih ("" ++ f p), String.empty_append, String.append_assoc]

theorem get_pdf_text_go_all_ok (docs : List UploadedPdf) :
    ∀ acc : String, docs.all pdf_ok = true →
      get_pdf_text_go acc docs
        = (some (pyStrip (acc ++ str_concat (docs.map doc_text))), []) := by
  induction docs with
  | nil => intro acc _; simp [get_pdf_text_go, str_concat]
  | cons d rest ih =>
    intro acc h
    simp only [List.all_cons, Bool.and_eq_true] at h
    obtain ⟨hd, hrest⟩ := h
    cases hps : d.pages with
    | error e => simp [pdf_ok, hps] at hd
    | ok ps =>
      simp only [get_pdf_text_go, hps]
      rw [ih _ hrest, str_foldl_shift (fun p => page_text_or_space p) ps acc]
      simp only [List.map_cons, str_concat, doc_text, hps, String.append_assoc]

theorem get_pdf_text_go_first_error (post : List UploadedPdf) (nm e : String)
    (pre : List UploadedPdf) :
    ∀ acc : String, pre.all pdf_ok = true →
      get_pdf_text_go acc (pre ++ { name := nm, pages := Except.error e } :: post)
        = (none, ["Error reading PDF " ++ nm ++ ": " ++ e]) := by
  induction pre with
  | nil => intro acc _; simp [get_pdf_text_go]
  | cons d rest ih =>
    intro acc h
    simp only [List.all_cons, Bool.and_eq_true] at h
    obtain ⟨hd, hrest⟩ := h
    cases hps : d.pages with
    | error e' => simp [pdf_ok, hps] at hd
    | ok ps =>
      simp only [List.cons_append, get_pdf_text_go, hps]
      exact ih _ hrest

/-- C1: the spec claims a batch in which exactly one document fails still
yields the usable concatenated text of the other documents, with one
per-document error notice.  In the code the first exception aborts the
whole extraction and returns `None`: here the middle document of three is
corrupt, the two good documents' text is discarded, and the result carries
no usable text at all. -/
theorem get_pdf_text_one_bad_doc_returns_none :
    get_pdf_text
        [ { name := "a.pdf", pages := Except.ok ["alpha"] },
          { name := "b.pdf", pages := Except.error "broken" },
          { name := "c.pdf", pages := Except.ok ["gamma"] } ]
      = (none, ["Error reading PDF b.pdf: broken"]) := by
  decide

/-- C1 (amended): a failure of any single document is fatal to the whole
batch.  If one document raises while all documents before it read cleanly,
`get_pdf_text` emits the one per-document error notice and returns `None`,
discarding the text of every document already processed. -/
theorem get_pdf_text_any_failure_aborts_batch (pre post : List UploadedPdf)
    (nm e : String) (h : pre.all pdf_ok = true) :
    get_pdf_text (pre ++ { name := nm, pages := Except.error e } :: post)
      = (none, ["Error reading PDF " ++ nm ++ ": " ++ e]) :=
  get_pdf_text_go_first_error post nm e pre "" h

/-- Witness for the amended C1 at a concrete two-good-one-bad batch. -/
theorem get_pdf_text_any_failure_aborts_batch_witness :
    ([ { name := "a.pdf", pages := Except.ok ["alpha"] } ] : List UploadedPdf).all pdf_ok = true
    ∧ get_pdf_text
          ([ { name := "a.pdf", pages := Except.ok ["alpha"] } ]
            ++ { name := "b.pdf", pages := Except.error "oops" }
              :: [ { name := "c.pdf", pages := Except.ok ["gamma"] } ])
        = (none, ["Error reading PDF b.pdf: oops"]) :=
  ⟨by decide,
   get_pdf_text_any_failure_aborts_batch
     [ { name := "a.pdf", pages := Except.ok ["alpha"] } ]
     [ { name := "c.pdf", pages := Except.ok ["gamma"] } ] "b.pdf" "oops" (by decide)⟩

/-- C5: the spec claims pages of a successfully extracted batch are
separated by at least one whitespace character.  A document whose two pages
extract to `"a"` and `"b"` yields `"ab"`: the page texts are concatenated
with no separator, and the result contains no whitespace character at
all. -/
theorem pages_not_whitespace_separated :
    get_pdf_text [ { name := "d.pdf", pages := Except.ok ["a", "b"] } ]
        = (some "ab", [])
    ∧ "ab".data.all (fun ch => !ch.isWhitespace) = true := by
  constructor
  · decide
  · decide

/-- C5 (amended): on an all-successful batch `get_pdf_text` returns, with
no error notice, the stripped concatenation of the documents' texts in
upload order, each document's text being its pages' `extract_text()`
results in page order concatenated directly — no separator is inserted,
and only a page extracting to nothing contributes a single space. -/
theorem get_pdf_text_success_concat (docs : List UploadedPdf)
    (h : docs.all pdf_ok = true) :
    get_pdf_text docs = (some (pyStrip (str_concat (docs.map doc_text))), []) := by
  have := get_pdf_text_go_all_ok docs "" h
  rwa [String.empty_append] at this

/-- Witness for the amended C5 at a concrete two-document batch. -/
theorem get_pdf_text_success_concat_witness :
    ([ { name := "a.pdf", pages := Except.ok ["one", "", "two"] },
       { name := "b.pdf", pages := Except.ok ["three"] } ] : List UploadedPdf).all pdf_ok = true
    ∧ get_pdf_text
          [ { name := "a.pdf", pages := Except.ok ["one", "", "two"] },
            { name := "b.pdf", pages := Except.ok ["three"] } ]
        = (some (pyStrip (str_concat
            (([ { name := "a.pdf", pages := Except.ok ["one", "", "two"] },
                { name := "b.pdf", pages := Except.ok ["three"] } ] : List UploadedPdf).map doc_text))), []) :=
  ⟨by decide,
   get_pdf_text_success_concat
     [ { name := "a.pdf", pages := Except.ok ["one", "", "two"] },
       { name := "b.pdf", pages := Except.ok ["three"] } ] (by decide)⟩

/- ===================== theorems: export ordering (C2) ===================== -/

theorem str_join_append (sep : String) (l₁ l₂ : List String)
    (h₁ : l₁ ≠ []) (h₂ : l₂ ≠ []) :
    str_join sep (l₁ ++ l₂) = str_join sep l₁ ++ sep ++ str_join sep l₂ := by
  induction l₁ with
  | nil => exact absurd rfl h₁
  | cons x xs ih =>
    cases xs with
    | nil =>
      cases l₂ with
      | nil => exact absurd rfl h₂
      | cons y ys => simp [str_join]
    | cons x' xs' =>
      have hrec := ih (by simp)
      simp only [List.cons_append] at hrec ⊢
      show x ++ sep ++ str_join sep (x' :: (xs' ++ l₂)) = _
      rw [hrec]
      simp [str_join, String.append_assoc]

theorem full_policy_text_append (s₁ s₂ : List (String × String))
    (h₁ : s₁ ≠ []) (h₂ : s₂ ≠ []) :
    full_policy_text (s₁ ++ s₂)
      = full_policy_text s₁ ++ "\n\n---\n\n" ++ full_policy_text s₂ := by
  unfold full_policy_text
  rw [List.map_append]
  exact str_join_append _ _ _ (by simpa using h₁) (by simpa using h₂)

/-- C2: the spec claims the export renders the stored sections in
lexicographic tag order.  The export iterates the dict in insertion order:
for a store holding `B` then `A`, the exported document opens with `## B`,
while the order the claim predicts opens with `## A`; the sorted order is
used only for the expander display list. -/
theorem full_policy_text_not_sorted_export :
    full_policy_text [("B", "x"), ("A", "y")] = "## B\n\nx\n\n---\n\n## A\n\ny"
    ∧ full_policy_text_sorted_spec [("B", "x"), ("A", "y")] = "## A\n\ny\n\n---\n\n## B\n\nx"
    ∧ full_policy_text [("B", "x"), ("A", "y")]
        ≠ full_policy_text_sorted_spec [("B", "x"), ("A", "y")]
    ∧ sorted_sections [("B", "x"), ("A", "y")] = ["A", "B"] := by
  refine ⟨by decide, by decide, by decide, by decide⟩

/-- C2 (amended): the export renders the stored sections in insertion
order of the result store — it is the join of the stores' `## tag` blocks
in store order, separated by horizontal rules — while only the on-screen
expander display iterates tags in lexicographic order. -/
theorem full_policy_text_insertion_order (s₁ s₂ : List (String × String))
    (t c : String) (h₁ : s₁ ≠ []) (h₂ : s₂ ≠ []) :
    full_policy_text (s₁ ++ s₂)
        = full_policy_text s₁ ++ "\n\n---\n\n" ++ full_policy_text s₂
    ∧ full_policy_text [(t, c)] = "## " ++ t ++ "\n\n" ++ c := by
  refine ⟨full_policy_text_append s₁ s₂ h₁ h₂, ?_⟩
  simp [full_policy_text, str_join, section_block]

/-- Witness for the amended C2 at a concrete two-section store. -/
theorem full_policy_text_insertion_order_witness :
    full_policy_text ([("B", "x")] ++ [("A", "y")])
        = full_policy_text [("B", "x")] ++ "\n\n---\n\n" ++ full_policy_text [("A", "y")]
    ∧ full_policy_text [("T", "body")] = "## " ++ "T" ++ "\n\n" ++ "body" :=
  full_policy_text_insertion_order [("B", "x")] [("A", "y")] "T" "body"
    (by decide) (by decide)

/- ===================== theorems: prompt assembly (C3, C4, C7) ===================== -/

/-- C3: the spec claims a missing input field substitutes as the empty
string.  For the Section 2.0 title with an input dict lacking
`local_roles_to_define`, the assembled instruction differs from the
instruction assembled with that field bound to the empty string: Python
renders the missing value as the four-character text `None`. -/
theorem missing_field_not_empty_string :
    system_instruction_tert "Section 2.0: Definitions and Acronyms" (fun _ => none) ""
      ≠ system_instruction_tert "Section 2.0: Definitions and Acronyms"
          (updateDict (fun _ => none) "local_roles_to_define" "") "" := by
  intro h
  have e1 : system_instruction_tert "Section 2.0: Definitions and Acronyms" (fun _ => none) ""
      = tert_sys_1 ++ "Section 2.0: Definitions and Acronyms"
        ++ tert_sys_2 ++ "None" ++ tert_sys_3 ++ "None" ++ tert_sys_4 ++ "None"
        ++ tert_sys_5 ++ "None"
        ++ tert_sys_6 ++ (tert_guid_2a ++ "None" ++ tert_guid_2b)
        ++ tert_sys_7 ++ "None" ++ tert_sys_8 ++ "None"
        ++ tert_sys_9 ++ "No external document context provided."
        ++ tert_sys_10 := rfl
  have e2 : system_instruction_tert "Section 2.0: Definitions and Acronyms"
        (updateDict (fun _ => none) "local_roles_to_define" "") ""
      = tert_sys_1 ++ "Section 2.0: Definitions and Acronyms"
        ++ tert_sys_2 ++ "None" ++ tert_sys_3 ++ "None" ++ tert_sys_4 ++ "None"
        ++ tert_sys_5 ++ "None"
        ++ tert_sys_6 ++ (tert_guid_2a ++ "" ++ tert_guid_2b)
        ++ tert_sys_7 ++ "None" ++ tert_sys_8 ++ "None"
        ++ tert_sys_9 ++ "No external document context provided."
        ++ tert_sys_10 := rfl
  rw [e1, e2] at h
  have hl := congrArg String.length h
  simp only [String.length_append] at hl
  rw [show ("None" : String).length = 4 from rfl,
      show ("" : String).length = 0 from rfl] at hl
  omega

/-- C3 (amended): a missing named field does not fail and substitutes as
the literal text `None` (Python's rendering of the absent value): for any
section title and any context, an input dict lacking field `k` assembles
the very instruction obtained by binding `k` to the string `"None"`. -/
theorem missing_field_renders_none (section_title policy_context k : String)
    (d : UserInputs) (h : d k = none) :
    system_instruction_tert section_title (updateDict d k "None") policy_context
      = system_instruction_tert section_title d policy_context := by
  have hfun : pyGetStr (updateDict d k "None") = pyGetStr d := by
    funext k'
    by_cases hk : k' = k
    · subst hk; simp [pyGetStr, updateDict, h]
    · simp [pyGetStr, updateDict, hk]
  simp only [system_instruction_tert, section_specific_prompt_guidance, hfun]

/-- Witness for the amended C3: the all-missing dict and the Section 2.0
title. -/
theorem missing_field_renders_none_witness :
    ((fun _ => none : UserInputs) "local_roles_to_define" = none)
    ∧ system_instruction_tert "Section 2.0: Definitions and Acronyms"
          (updateDict (fun _ => none) "local_roles_to_define" "None") ""
        = system_instruction_tert "Section 2.0: Definitions and Acronyms" (fun _ => none) "" :=
  ⟨rfl,
   missing_field_renders_none "Section 2.0: Definitions and Acronyms" ""
     "local_roles_to_define" (fun _ => none) rfl⟩

set_option maxRecDepth 8000 in
/-- C4: the spec claims the section fragment is chosen by exact match of
the tag against the enumerated mapping, unmatched tags falling back to the
generic fragment.  The tag `"Section 1.0 Bogus"` is not among the
enumerated titles, so the claim predicts the generic fragment, but the
code's `startswith` branching selects the Section 1.0 fragment. -/
theorem fragment_selection_not_exact_match :
    List.lookup "Section 1.0 Bogus" POLICY_SECTIONS = none
    ∧ section_specific_prompt_guidance "Section 1.0 Bogus" (fun _ => none) = tert_guid_1
    ∧ section_specific_prompt_guidance "Section 1.0 Bogus" (fun _ => none)
        ≠ fragment_by_exact_match "Section 1.0 Bogus" (fun _ => none)
    ∧ fragment_by_exact_match "Section 1.0 Bogus" (fun _ => none) = tert_guid_generic := by
  refine ⟨by decide, by decide, by decide, by decide⟩

/-- C4 (amended): fragment selection is by prefix test, in order, of the
section title against `"Section 1.0"` … `"Section 6.0"`; a title matching
none of the six prefixes receives the generic use-all-inputs fragment, and
selection is a total function — it never raises. -/
theorem fragment_selection_prefix_fallback (section_title : String) (d : UserInputs)
    (h1 : pyStartsWith section_title "Section 1.0" = false)
    (h2 : pyStartsWith section_title "Section 2.0" = false)
    (h3 : pyStartsWith section_title "Section 3.0" = false)
    (h4 : pyStartsWith section_title "Section 4.0" = false)
    (h5 : pyStartsWith section_title "Section 5.0" = false)
    (h6 : pyStartsWith section_title "Section 6.0" = false) :
    section_specific_prompt_guidance section_title d = tert_guid_generic := by
  simp [section_specific_prompt_guidance, h1, h2, h3, h4, h5, h6]

/-- Witness for the amended C4 at a concrete unmatched title. -/
theorem fragment_selection_prefix_fallback_witness :
    pyStartsWith "Appendix A: Forms" "Section 1.0" = false
    ∧ section_specific_prompt_guidance "Appendix A: Forms" (fun _ => none) = tert_guid_generic :=
  ⟨by decide,
   fragment_selection_prefix_fallback "Appendix A: Forms" (fun _ => none)
     (by decide) (by decide) (by decide) (by decide) (by decide) (by decide)⟩

theorem sysInstr_empty_context_placeholder (section_title : String) (d : UserInputs) :
    ∃ a b : String, system_instruction_tert section_title d ""
      = a ++ ("No external document context provided." ++ b) := by
  refine ⟨tert_sys_1 ++ section_title ++ tert_sys_2 ++ pyGetStr d "agency_name"
    ++ tert_sys_3 ++ pyGetStr d "ahj_name" ++ tert_sys_4 ++ pyGetStr d "ter_program_goal"
    ++ tert_sys_5 ++ pyGetStr d "state_authority_reference"
    ++ tert_sys_6 ++ section_specific_prompt_guidance section_title d
    ++ tert_sys_7 ++ pyGetStr d "background_check"
    ++ tert_sys_8 ++ pyGetStr d "additional_training" ++ tert_sys_9,
    tert_sys_10, ?_⟩
  simp [system_instruction_tert, pyStrOr, String.append_assoc]

/-- C7: for an empty reference-text blob the assembled instruction's
optional-context block carries the literal statement
`No external document context provided.` rather than an empty block. -/
theorem empty_context_placeholder (section_title : String) (d : UserInputs) :
    ∃ a b : String, system_instruction_tert section_title d ""
      = a ++ ("No external document context provided." ++ b) :=
  sysInstr_empty_context_placeholder section_title d

/- ===================== theorems: generation invocation (C8, C9) ===================== -/

/-- C8: a missing (empty, hence falsy) API credential makes
`generate_policy_section` return the credential-missing error text with an
empty action trace: no client is constructed and no generation call is
attempted, whatever the service environment would have answered. -/
theorem missing_credential_no_service_calls (section_title : String) (d : UserInputs)
    (policy_context model : String) (env : GeminiEnv) :
    generate_policy_section section_title d policy_context "" model env
      = ("Error: Gemini API Key is missing. Please enter it in the sidebar.", []) := rfl

theorem lookup_dict_set (m : List (String × String)) (k v : String) :
    List.lookup k (dict_set m k v) = some v := by
  induction m with
  | nil => simp [dict_set, List.lookup]
  | cons p rest ih =>
    by_cases hk : p.1 = k
    · simp [dict_set, hk, List.lookup]
    · have hne : (k == p.1) = false := by
        rw [beq_eq_false_iff_ne]
        exact fun hkk => hk hkk.symm
      simp [dict_set, hk, List.lookup, ih, hne]

/-- C9: the claim says a failed generation attempt — including a missing
credential — still overwrites the result store with the error text.  With
an empty stored API key the button handler shows an error and returns with
the session state, including the store and its previous text for the
section, unchanged: `generate_policy_section` is never called. -/
theorem missing_credential_leaves_store_unchanged :
    handle_generate
        { generated_sections :=
            [("Section 3.0: TERT Personnel Minimum Qualifications and Training",
              "previously generated text")],
          pdf_context := "some context", show_full_draft := true, gemini_api_key := "" }
        "Section 3.0: TERT Personnel Minimum Qualifications and Training" (fun _ => none)
        { client_init := Except.ok (), call_response := fun _ _ => Except.ok "fresh text" }
      = { generated_sections :=
            [("Section 3.0: TERT Personnel Minimum Qualifications and Training",
              "previously generated text")],
          pdf_context := "some context", show_full_draft := true, gemini_api_key := "" } := rfl

/-- C9 (amended): once the handler's credential guard passes, whatever text
`generate_policy_section` returns — a success or the client-initialization
or service-call error text — is stored under the section tag exactly like a
success, overwriting any previous entry; only the missing-credential case
leaves the store untouched, because the handler rejects before calling the
generator. -/
theorem failure_text_stored_like_success (st : SessionState) (section_title : String)
    (d : UserInputs) (env : GeminiEnv) (hkey : ¬ st.gemini_api_key = "") :
    List.lookup section_title (handle_generate st section_title d env).generated_sections
      = some (generate_policy_section section_title d st.pdf_context st.gemini_api_key
          POLICY_GENERATION_MODEL env).1
    ∧ ∀ e : String, env.client_init = Except.error e →
        List.lookup section_title (handle_generate st section_title d env).generated_sections
          = some ("Error: Failed to initialize Gemini client: " ++ e) := by
  have h1 : List.lookup section_title
        (handle_generate st section_title d env).generated_sections
      = some (generate_policy_section section_title d st.pdf_context st.gemini_api_key
          POLICY_GENERATION_MODEL env).1 := by
    simp [handle_generate, hkey, lookup_dict_set]
  refine ⟨h1, ?_⟩
  intro e he
  rw [h1]
  simp [generate_policy_section, hkey, he]

/-- Witness for the amended C9: a client-initialization failure overwrites
the previously stored text with the init error message. -/
theorem failure_text_stored_like_success_witness :
    ¬ ({ generated_sections := [("T", "old")], pdf_context := "",
         show_full_draft := false, gemini_api_key := "k" } : SessionState).gemini_api_key = ""
    ∧ List.lookup "T"
        (handle_generate
          { generated_sections := [("T", "old")], pdf_context := "",
            show_full_draft := false, gemini_api_key := "k" }
          "T" (fun _ => none)
          { client_init := Except.error "boom",
            call_response := fun _ _ => Except.error "x" }).generated_sections
      = some ("Error: Failed to initialize Gemini client: " ++ "boom") :=
  ⟨by decide,
   (failure_text_stored_like_success
     { generated_sections := [("T", "old")], pdf_context := "",
       show_full_draft := false, gemini_api_key := "k" }
     "T" (fun _ => none)
     { client_init := Except.error "boom", call_response := fun _ _ => Except.error "x" }
     (by decide)).2 "boom" rfl⟩

/- ===================== theorems: clear operation (C10) ===================== -/

/-- C10: the explicit clear operation resets the result store, the
extracted reference-text cache and the full-draft display flag to their
empty initial values, and a generation performed on the cleared state
assembles its prompt with the no-external-context placeholder — it proceeds
with no document context. -/
theorem clear_resets_store_context_and_flag (st : SessionState) :
    (clear_session_state st).generated_sections = []
    ∧ (clear_session_state st).pdf_context = ""
    ∧ (clear_session_state st).show_full_draft = false
    ∧ ∀ (section_title : String) (d : UserInputs),
        ∃ a b : String,
          system_instruction_tert section_title d (clear_session_state st).pdf_context
            = a ++ ("No external document context provided." ++ b) := by
  refine ⟨rfl, rfl, rfl, ?_⟩
  intro section_title d
  exact sysInstr_empty_context_placeholder section_title d

/- ===================== theorems: export round-trip (C6) ===================== -/

theorem splitSep_ne_nil (s : List Char) : splitSep s ≠ [] := by
  rw [splitSep.eq_def]
  split
  · simp
  · simp
  · rename_i c rest _
    cases splitSep rest <;> simp

theorem splitSep_cons_of_ne (c : Char) (rest : List Char) (h : c ≠ '\n') :
    splitSep (c :: rest) = consHead c (splitSep rest) := by
  rw [splitSep.eq_def]
  split
  · simp_all
  · rename_i heq
    injection heq with h1 _
    exact absurd h1 h
  · rename_i heq
    injection heq with h1 h2
    subst h1; subst h2
    cases splitSep rest <;> simp [consHead]

theorem splitSep_nl_of_not (w : List Char)
    (h : (['\n', '-', '-', '-', '\n', '\n'].isPrefixOf w) = false) :
    splitSep ('\n' :: w) = consHead '\n' (splitSep w) := by
  rw [splitSep.eq_def]
  split
  · simp_all
  · rename_i heq
    injection heq with _ h2
    subst h2
    simp [List.isPrefixOf] at h
  · rename_i heq
    injection heq with h1 h2
    subst h1; subst h2
    cases splitSep w <;> simp [consHead]

theorem splitSep_append_clean (u : List Char)
    (hu : u.all (fun ch => ch != '\n') = true) (r p : List Char) (ps : List (List Char))
    (hr : splitSep r = p :: ps) :
    splitSep (u ++ r) = (u ++ p) :: ps := by
  induction u with
  | nil => simpa using hr
  | cons c u' ih =>
    simp only [List.all_cons, Bool.and_eq_true, bne_iff_ne] at hu
    obtain ⟨hc, hu'⟩ := hu
    rw [List.cons_append, splitSep_cons_of_ne c _ hc,
        ih (by simpa [List.all_eq_true, bne_iff_ne] using hu')]
    simp [consHead]

theorem not_prefix_dash (cd X : List Char) (hh : cd.head? ≠ some '-')
    (hX : X = [] ∨ ∃ m, X = sep_chars ++ m) :
    (['-', '-', '-', '\n', '\n'].isPrefixOf (cd ++ X)) = false := by
  cases cd with
  | nil =>
    rcases hX with hX | ⟨m, hX⟩ <;> subst hX
    · rfl
    · simp [sep_chars, List.isPrefixOf]
  | cons ch cd' =>
    have : ch ≠ '-' := by
      intro hch
      exact hh (by simp [hch])
    simp [List.isPrefixOf, beq_eq_false_iff_ne, Ne.symm this]

theorem not_prefix_nl (cd X : List Char)
    (hc : cd.all (fun ch => ch != '\n') = true)
    (hX : X = [] ∨ ∃ m, X = sep_chars ++ m) :
    (['\n', '-', '-', '-', '\n', '\n'].isPrefixOf (cd ++ X)) = false := by
  cases cd with
  | nil =>
    rcases hX with hX | ⟨m, hX⟩ <;> subst hX
    · rfl
    · simp [sep_chars, List.isPrefixOf]
  | cons ch cd' =>
    simp only [List.all_cons, Bool.and_eq_true, bne_iff_ne] at hc
    simp [List.isPrefixOf, beq_eq_false_iff_ne, Ne.symm hc.1]

theorem splitSep_block_general (t c : String) (X : List Char) (ps : List (List Char))
    (ht : t.data.all (fun ch => ch != '\n') = true)
    (hc : c.data.all (fun ch => ch != '\n') = true)
    (hh : c.data.head? ≠ some '-')
    (hX : X = [] ∨ ∃ m, X = sep_chars ++ m)
    (hsp : splitSep X = [] :: ps) :
    splitSep (block_chars t c ++ X) = block_chars t c :: ps := by
  have hcx : splitSep (c.data ++ X) = (c.data ++ []) :: ps :=
    splitSep_append_clean c.data hc X [] ps hsp
  have h2 : splitSep ('\n' :: (c.data ++ X)) = ('\n' :: (c.data ++ [])) :: ps := by
    rw [splitSep_nl_of_not _ (not_prefix_nl c.data X hc hX), hcx]
    simp [consHead]
  have h3 : splitSep ('\n' :: '\n' :: (c.data ++ X))
      = ('\n' :: '\n' :: (c.data ++ [])) :: ps := by
    have hcond : (['\n', '-', '-', '-', '\n', '\n'].isPrefixOf ('\n' :: (c.data ++ X))) = false := by
      simp [List.isPrefixOf, not_prefix_dash c.data X hh hX]
    rw [splitSep_nl_of_not _ hcond, h2]
    simp [consHead]
  have h4 : splitSep (t.data ++ ('\n' :: '\n' :: (c.data ++ X)))
      = (t.data ++ ('\n' :: '\n' :: (c.data ++ []))) :: ps :=
    splitSep_append_clean t.data ht _ _ _ h3
  have hstream : block_chars t c ++ X
      = '#' :: '#' :: ' ' :: (t.data ++ ('\n' :: '\n' :: (c.data ++ X))) := by
    simp [block_chars, List.append_assoc]
  rw [hstream,
      splitSep_cons_of_ne '#' _ (by decide),
      splitSep_cons_of_ne '#' _ (by decide),
      splitSep_cons_of_ne ' ' _ (by decide),
      h4]
  simp [consHead, block_chars]

theorem splitSep_doc (store : List (String × String)) (hne : store ≠ [])
    (hsafe : safe_store store = true) :
    splitSep (doc_chars store) = store.map (fun p => block_chars p.1 p.2) := by
  induction store with
  | nil => exact absurd rfl hne
  | cons p rest ih =>
    simp only [safe_store, List.all_cons, Bool.and_eq_true] at hsafe
    obtain ⟨⟨⟨ht, hc⟩, hh⟩, hrest⟩ := hsafe
    have hh' : p.2.data.head? ≠ some '-' := by
      simpa [bne_iff_ne] using hh
    cases rest with
    | nil =>
      show splitSep (doc_chars [p]) = [block_chars p.1 p.2]
      have : doc_chars [p] = block_chars p.1 p.2 ++ [] := by
        simp [doc_chars]
      rw [this, splitSep_block_general p.1 p.2 [] [] ht hc hh' (Or.inl rfl) rfl]
    | cons q rest' =>
      show splitSep (block_chars p.1 p.2 ++ (sep_chars ++ doc_chars (q :: rest')))
        = block_chars p.1 p.2 :: (q :: rest').map (fun p => block_chars p.1 p.2)
      rw [splitSep_block_general p.1 p.2 (sep_chars ++ doc_chars (q :: rest'))
            (splitSep (doc_chars (q :: rest'))) ht hc hh'
            (Or.inr ⟨doc_chars (q :: rest'), rfl⟩) rfl,
          ih (by simp) (by simpa [safe_store] using hrest)]

theorem full_policy_text_data (store : List (String × String)) :
    (full_policy_text store).data = doc_chars store := by
  induction store with
  | nil => rfl
  | cons p rest ih =>
    cases rest with
    | nil =>
      show (str_join "\n\n---\n\n" [section_block p.1 p.2]).data = doc_chars [p]
      simp [str_join, section_block, doc_chars, block_chars, String.data_append,
        show ("## " : String).data = ['#', '#', ' '] from rfl,
        show ("\n\n" : String).data = ['\n', '\n'] from rfl]
    | cons q rest' =>
      show (str_join "\n\n---\n\n"
          (section_block p.1 p.2 :: (q :: rest').map (fun p => section_block p.1 p.2))).data
        = doc_chars (p :: q :: rest')
      have hjoin : str_join "\n\n---\n\n"
          (section_block p.1 p.2 :: (q :: rest').map (fun p => section_block p.1 p.2))
        = section_block p.1 p.2 ++ "\n\n---\n\n"
            ++ str_join "\n\n---\n\n" ((q :: rest').map (fun p => section_block p.1 p.2)) := by
        simp [str_join]
      rw [hjoin]
      have ihq : (str_join "\n\n---\n\n"
          ((q :: rest').map (fun p => section_block p.1 p.2))).data = doc_chars (q :: rest') := ih
      show (section_block p.1 p.2 ++ "\n\n---\n\n"
          ++ str_join "\n\n---\n\n" ((q :: rest').map (fun p => section_block p.1 p.2))).data
        = block_chars p.1 p.2 ++ (sep_chars ++ doc_chars (q :: rest'))
      simp only [String.data_append]
      rw [ihq]
      simp [section_block, block_chars, sep_chars, String.data_append,
        show ("## " : String).data = ['#', '#', ' '] from rfl,
        show ("\n\n" : String).data = ['\n', '\n'] from rfl,
        show ("\n\n---\n\n" : String).data = ['\n', '\n', '-', '-', '-', '\n', '\n'] from rfl]

theorem take_line_clean (u : List Char)
    (hu : u.all (fun ch => ch != '\n') = true) (r : List Char) :
    take_line (u ++ '\n' :: r) = (u, r) := by
  induction u with
  | nil => rfl
  | cons c u' ih =>
    simp only [List.all_cons, Bool.and_eq_true, bne_iff_ne] at hu
    rw [List.cons_append, take_line.eq_def]
    split
    · rename_i heq
      exact absurd heq (by simp)
    · rename_i heq
      injection heq with h1 _
      exact absurd h1 hu.1
    · rename_i c' rest' heq
      injection heq with h1 h2
      subst h1
      rw [← h2, ih (by simpa [List.all_eq_true, bne_iff_ne] using hu.2)]

theorem parse_block_block_chars (t c : String)
    (ht : t.data.all (fun ch => ch != '\n') = true) :
    parse_block (block_chars t c) = (t, c) := by
  have hpre : (['#', '#', ' '].isPrefixOf (block_chars t c)) = true := by
    simp [block_chars, List.isPrefixOf]
  have hdrop : (block_chars t c).drop 3 = t.data ++ '\n' :: '\n' :: c.data := rfl
  have htl : take_line (t.data ++ '\n' :: '\n' :: c.data) = (t.data, '\n' :: c.data) :=
    take_line_clean t.data ht ('\n' :: c.data)
  simp [parse_block, hpre, hdrop, htl]

theorem parse_blocks_map (store : List (String × String))
    (hsafe : safe_store store = true) :
    store.map ((fun b => parse_block b) ∘ (fun p => block_chars p.1 p.2)) = store := by
  induction store with
  | nil => rfl
  | cons p rest ih =>
    simp only [safe_store, List.all_cons, Bool.and_eq_true] at hsafe
    obtain ⟨⟨⟨ht, _⟩, _⟩, hrest⟩ := hsafe
    simp only [List.map_cons, Function.comp_apply, parse_block_block_chars p.1 p.2 ht]
    rw [ih (by simpa [safe_store] using hrest)]

set_option maxRecDepth 4000 in
/-- C6: the spec claims the export/re-parse round-trip recovers the same
set of section tags for every result store.  A store whose single section
body embeds a horizontal rule followed by a level-2 heading re-parses into
two sections: the re-parsed tag set contains `Fake`, which is not a tag of
the store. -/
theorem export_reparse_not_roundtrip :
    "Fake" ∈ (parse_export (full_policy_text
        [("Section 1.0", "x\n\n---\n\n## Fake\n\ny")])).map Prod.fst
    ∧ "Fake" ∉ ([("Section 1.0", "x\n\n---\n\n## Fake\n\ny")].map Prod.fst) := by
  refine ⟨by decide, by decide⟩

/-- C6 (amended): for every non-empty result store whose exported document
is unambiguous — tags and bodies free of newlines and no body opening with
a dash, so that no body can forge a separator or a heading — re-parsing the
exported document's level-2 headings and the text under them recovers
exactly the stored tag/body pairs. -/
theorem export_reparse_roundtrip_safe (store : List (String × String))
    (hne : store ≠ []) (hsafe : safe_store store = true) :
    parse_export (full_policy_text store) = store := by
  unfold parse_export
  rw [full_policy_text_data, splitSep_doc store hne hsafe, List.map_map]
  exact parse_blocks_map store hsafe

set_option maxRecDepth 8000 in
/-- Witness for the amended C6 at a concrete two-section store. -/
theorem export_reparse_roundtrip_safe_witness :
    ([("Section 1.0: Purpose, Scope, and Authority", "The program exists."),
      ("Section 2.0: Definitions and Acronyms", "TERT means task force.")]
        ≠ ([] : List (String × String)))
    ∧ safe_store
        [("Section 1.0: Purpose, Scope, and Authority", "The program exists."),
         ("Section 2.0: Definitions and Acronyms", "TERT means task force.")] = true
    ∧ parse_export (full_policy_text
        [("Section 1.0: Purpose, Scope, and Authority", "The program exists."),
         ("Section 2.0: Definitions and Acronyms", "TERT means task force.")])
      = [("Section 1.0: Purpose, Scope, and Authority", "The program exists."),
         ("Section 2.0: Definitions and Acronyms", "TERT means task force.")] :=
  ⟨by decide, by decide,
   export_reparse_roundtrip_safe
     [("Section 1.0: Purpose, Scope, and Authority", "The program exists."),
      ("Section 2.0: Definitions and Acronyms", "TERT means task force.")]
     (by decide) (by decide)⟩
